import Mathlib

/-!
Shallow embedding of the FreeBSD platform implementation of the systemstat
telemetry layer (src/systemstat/src/platform/freebsd.rs), together with the
external-crate semantics it relies on (the bytesize crate's ByteSize and the
chrono timestamp constructor).  Machine integers are modelled as Nat / Int
with explicit reduction mod 2^64 or 2^32 where Rust performs fixed-width
arithmetic whose overflow could matter.
-/

namespace Systemstat

/-- 2^64, the modulus of u64 / usize arithmetic on the 64-bit target. -/
def U64MOD : Nat := 18446744073709551616

/-- 2^32, the modulus of u32 arithmetic. -/
def U32MOD : Nat := 4294967296

/-- Rust u64 left shift `a << s`: bits shifted past the top are discarded. -/
def u64_shl (a s : Nat) : Nat := a * 2 ^ s % U64MOD

/-- Rust u64 multiplication (wrapping, as in release builds). -/
def u64_mul (a b : Nat) : Nat := a * b % U64MOD

/-- Rust cast `x as usize` / `x as u64` from i64: two's complement reinterpretation. -/
def i64_to_u64 (x : Int) : Nat := (x % (U64MOD : Int)).toNat

/-- Rust cast `x as u32` from a signed integer: two's complement reinterpretation. -/
def int_to_u32 (x : Int) : Nat := (x % (U32MOD : Int)).toNat

/-- The bytesize crate's ByteSize: a u64 count of bytes. -/
structure ByteSize where
  bytes : Nat
deriving Repr, DecidableEq

/-- bytesize: `ByteSize::b(n)` — n bytes. -/
def ByteSize.b (n : Nat) : ByteSize := ⟨ n ⟩

/-- bytesize: `ByteSize::kib(n)` — n * 1024 bytes (u64 multiplication). -/
def ByteSize.kib (n : Nat) : ByteSize := ⟨ u64_mul n 1024 ⟩

/-- bytesize: `impl Add for ByteSize` adds the u64 byte counts. -/
instance : Add ByteSize := ⟨ fun x y => ⟨ (x.bytes + y.bytes) % U64MOD ⟩ ⟩

/-- systemstat data module: `saturating_sub_bytes(l, r)` clamps at zero
(u64 `saturating_sub`, which on Nat is plain truncated subtraction). -/
def saturating_sub_bytes (l r : ByteSize) : ByteSize := ⟨ l.bytes - r.bytes ⟩

/-- Errors of type `std::io::Error` as this platform file builds them:
`io::Error::new(io::ErrorKind::Other, msg)` — identified by their message. -/
structure IoError where
  msg : String
deriving Repr, DecidableEq

/-- The error value every unsupported metric returns:
`io::Error::new(io::ErrorKind::Other, "Not supported")`, which the spec's
taxonomy names `Unsupported`. -/
def not_supported : IoError := ⟨ "Not supported" ⟩

/-!
## Kernel Query Primitives: name-to-mib resolution (sysctl_mib! macro)

`sysctl_mib!(len, name)` zero-initializes a `[c_int; len]` array, calls
`sysctlnametomib` on it and returns the array.  The return status of
`sysctlnametomib` is discarded (`unsafe { sysctlnametomib(..) };`), so when
the name is unknown to the kernel the array keeps its zero initialization
and is returned as the handle.  The running kernel's name table is modelled
as a partial map from names to mib vectors.
-/

/-- The `sysctl_mib!` macro: resolve `name` against the kernel's table into a
`len`-entry mib array.  On success `sysctlnametomib` fills the array with the
kernel's mib (padded by the untouched zero initialization if shorter); on
failure — the name is unknown, `kernel name = none` — the error is ignored
and the all-zero array is returned. -/
def sysctl_mib (len : Nat) (kernel : String → Option (List Int)) (name : String) : List Int :=
  match kernel name with
  | Option.some m => (m ++ List.replicate len 0).take len
  | Option.none => List.replicate len 0

/-!
## memory()

Raw inputs: the five `vm.stats.vm.*` page counters read into `usize`
variables by required sysctl calls (`v_cache_count` is optional — on failure
it keeps its zero initialization, which is just another value of the
sample), plus `kstat.zfs.misc.arcstats.size` in bytes (`unwrap_or(0)` when
absent).  The page shift comes from `bsd::PAGESHIFT` (platform/bsd.rs, the
platform-common module), modelled here as a parameter.
-/

/-- One successful set of raw kernel readings consumed by `memory()`. -/
structure RawMemSample where
  active : Nat
  inactive : Nat
  wired : Nat
  cache : Nat
  free : Nat
  arc : Nat
deriving Repr, DecidableEq

/-- The FreeBSD `PlatformMemory` breakdown. -/
structure PlatformMemory where
  active : ByteSize
  inactive : ByteSize
  wired : ByteSize
  cache : ByteSize
  zfs_arc : ByteSize
  free : ByteSize
deriving Repr, DecidableEq

/-- The portable `Memory` result. -/
structure Memory where
  total : ByteSize
  free : ByteSize
  platform_memory : PlatformMemory
deriving Repr, DecidableEq

/-- `PlatformImpl::memory()` on a successful read of sample `s` with page
shift `ps`: each page counter is shifted by the page shift and wrapped in
`ByteSize::kib`; the ZFS ARC size is wrapped in `ByteSize::b` and subtracted
from wired via `saturating_sub_bytes`; `total` and `free` are the sums the
source writes on its last lines. -/
def memory (ps : Nat) (s : RawMemSample) : Memory :=
  let arc := ByteSize.b s.arc
  let pmem : PlatformMemory :=
    { active := ByteSize.kib (u64_shl s.active ps)
    , inactive := ByteSize.kib (u64_shl s.inactive ps)
    , wired := saturating_sub_bytes (ByteSize.kib (u64_shl s.wired ps)) arc
    , cache := ByteSize.kib (u64_shl s.cache ps)
    , zfs_arc := arc
    , free := ByteSize.kib (u64_shl s.free ps) }
  { total := pmem.active + pmem.inactive + pmem.wired + pmem.cache + arc + pmem.free
  , free := pmem.inactive + pmem.cache + arc + pmem.free
  , platform_memory := pmem }

/-!
## boot_time()

The raw record is a C `timeval` (tv_sec: time_t = i64, tv_usec:
suseconds_t = i64 on this target) filled by the `kern.boottime` sysctl.
The code builds `NaiveDateTime::from_timestamp(data.tv_sec.into(),
data.tv_usec as u32)`; chrono's `from_timestamp(secs, nsecs)` takes whole
seconds and a NANOSECOND fraction, so the resulting instant is modelled by
its signed nanosecond offset from the Unix epoch.
-/

/-- A raw kernel `timeval` record. -/
structure timeval where
  tv_sec : Int
  tv_usec : Int
deriving Repr, DecidableEq

/-- chrono `NaiveDateTime::from_timestamp(secs, nsecs)` as nanoseconds since
the Unix epoch. -/
def from_timestamp (secs : Int) (nsecs : Nat) : Int :=
  secs * 1000000000 + nsecs

/-- `PlatformImpl::boot_time()` on raw record `t`: passes `tv_sec` as the
seconds and `tv_usec as u32` as the nanosecond argument. -/
def boot_time (t : timeval) : Int :=
  from_timestamp t.tv_sec (int_to_u32 t.tv_usec)

/-- The timestamp the spec describes, for comparison: exactly `tv_sec`
seconds plus `tv_usec` microseconds after the Unix epoch, in nanoseconds.
This definition follows the spec's words, not the source. -/
def boot_time_per_spec (t : timeval) : Int :=
  t.tv_sec * 1000000000 + t.tv_usec * 1000

/-!
## battery_life()

Raw inputs: `hw.acpi.battery.life` read into a usize and
`hw.acpi.battery.time` read into an i32.  `remaining_capacity` is
`life as f32 / 100.0`; an f32 quotient of integers this small is modelled
exactly as a rational (the comparisons the claims make are unaffected by
f32 rounding, and 150/100 = 1.5 is exactly representable).
`remaining_time` is `Duration::from_secs(if time < 0 { 0 } else { time })`.
-/

/-- The portable `BatteryLife` result; the duration is its u64 second count. -/
structure BatteryLife where
  remaining_capacity : ℚ
  remaining_time_secs : Nat
deriving Repr, DecidableEq

/-- `PlatformImpl::battery_life()` on raw readings `life` and `time`. -/
def battery_life (life : Nat) (time : Int) : BatteryLife :=
  { remaining_capacity := (life : ℚ) / 100
  , remaining_time_secs := if time < 0 then 0 else time.toNat }

/-!
## Mount decoding: statfs.to_fs, mounts(), mount_at()

The raw FreeBSD `statfs` record, with only the fields `to_fs` reads; the
fixed-size `c_schar` name arrays are modelled by their lossily decoded
strings (`CStr::to_string_lossy`).  `f_bavail` and `f_ffree` are signed
(i64) in the kernel ABI and are cast to unsigned in `to_fs`.
-/

/-- Raw `statfs` fields consumed by `to_fs`. -/
structure statfs_raw where
  f_bsize : Nat
  f_blocks : Nat
  f_bfree : Nat
  f_bavail : Int
  f_files : Nat
  f_ffree : Int
  f_namemax : Nat
  f_fstypename : String
  f_mntfromname : String
  f_mntonname : String
deriving Repr, DecidableEq

/-- The portable `Filesystem` result. -/
structure Filesystem where
  files : Nat
  files_total : Nat
  files_avail : Nat
  free : ByteSize
  avail : ByteSize
  total : ByteSize
  name_max : Nat
  fs_type : String
  fs_mounted_from : String
  fs_mounted_on : String
deriving Repr, DecidableEq

/-- `statfs::to_fs`: the shared decoder.  `files` is
`(f_files as usize).saturating_sub(f_ffree as usize)`; the byte totals are
u64 products with the block size. -/
def statfs_raw.to_fs (m : statfs_raw) : Filesystem :=
  { files := m.f_files - i64_to_u64 m.f_ffree
  , files_total := m.f_files
  , files_avail := i64_to_u64 m.f_ffree
  , free := ByteSize.b (u64_mul m.f_bfree m.f_bsize)
  , avail := ByteSize.b (u64_mul (i64_to_u64 m.f_bavail) m.f_bsize)
  , total := ByteSize.b (u64_mul m.f_blocks m.f_bsize)
  , name_max := m.f_namemax
  , fs_type := m.f_fstypename
  , fs_mounted_from := m.f_mntfromname
  , fs_mounted_on := m.f_mntonname }

/-- `PlatformImpl::mounts()`: `getmntinfo` returns a length and an array of
records; a length below 1 is an error, otherwise every record is decoded by
the shared `to_fs`. -/
def mounts (len : Int) (records : List statfs_raw) : Except IoError (List Filesystem) :=
  if len < 1 then Except.error ⟨ "getmntinfo() failed" ⟩
  else Except.ok (records.map statfs_raw.to_fs)

/-- `PlatformImpl::mount_at(path)`: the single-record `statfs` call either
fails (modelled `none`) or fills one record, decoded by the shared `to_fs`. -/
def mount_at (result : Option statfs_raw) : Except IoError Filesystem :=
  match result with
  | Option.none => Except.error ⟨ "statfs() failed" ⟩
  | Option.some sfs => Except.ok sfs.to_fs

/-!
## Unsupported metrics

`block_device_statistics`, `network_stats` and `socket_stats` each
unconditionally return `Err(io::Error::new(io::ErrorKind::Other,
"Not supported"))`.  Their success payload types never materialize on this
platform; they are modelled by empty structures.
-/

/-- Success payload of block_device_statistics (never produced here). -/
structure BlockDeviceStats where
deriving Repr, DecidableEq

/-- Success payload of network_stats (never produced here). -/
structure NetworkStats where
deriving Repr, DecidableEq

/-- Success payload of socket_stats (never produced here). -/
structure SocketStats where
deriving Repr, DecidableEq

/-- `PlatformImpl::block_device_statistics()`. -/
def block_device_statistics : Except IoError (List (String × BlockDeviceStats)) :=
  Except.error not_supported

/-- `PlatformImpl::network_stats(interface)`. -/
def network_stats (_iface : String) : Except IoError NetworkStats :=
  Except.error not_supported

/-- `PlatformImpl::socket_stats()`. -/
def socket_stats : Except IoError SocketStats :=
  Except.error not_supported

/-!
## cpu_load second phase

`cpu_load` snapshots `measure_cpu()` and returns a deferred computation
that snapshots again and maps `(*now - prev).to_cpuload()` per CPU.
Modelled from the spec: `CpuTime`, its subtraction and `to_cpuload` live in
the data module of this repository, which is not under src/; per the spec,
per-state tick deltas are plain subtraction of unsigned counters and the
delta is "converted to CpuLoad by normalizing by the delta's total".  The
normalization is f32 division; an f32 value is modelled as either an exact
rational or NaN, and a quotient with zero divisor is NaN (every numerator
at the zero-total call is itself zero, since the total is the sum of the
numerators, and IEEE 754 0.0 / 0.0 is NaN).
-/

/-- Raw per-state tick counters of one CPU at one instant. -/
structure CpuTime where
  user : Nat
  nice : Nat
  system : Nat
  interrupt : Nat
  idle : Nat
deriving Repr, DecidableEq

/-- Per-state delta of two samples: plain subtraction (spec section 4.3). -/
def CpuTime.sub (now prev : CpuTime) : CpuTime :=
  { user := now.user - prev.user
  , nice := now.nice - prev.nice
  , system := now.system - prev.system
  , interrupt := now.interrupt - prev.interrupt
  , idle := now.idle - prev.idle }

/-- The delta's total: sum of the per-state ticks. -/
def CpuTime.total (c : CpuTime) : Nat :=
  c.user + c.nice + c.system + c.interrupt + c.idle

/-- An f32 result: an exact rational, or NaN. -/
inductive F32 where
  | nan : F32
  | val : ℚ → F32
deriving DecidableEq

/-- f32 division of a tick count by the delta total: IEEE 0.0 / 0.0 = NaN
when the total is zero (numerators are bounded by the total, hence zero). -/
def f32_div (n total : Nat) : F32 :=
  if total = 0 then F32.nan else F32.val ((n : ℚ) / (total : ℚ))

/-- Normalized per-state CPU fractions. -/
structure CpuLoad where
  user : F32
  nice : F32
  system : F32
  interrupt : F32
  idle : F32
deriving DecidableEq

/-- Modelled from the spec: `CpuTime::to_cpuload` — normalize each state by
the delta's total. -/
def CpuTime.to_cpuload (c : CpuTime) : CpuLoad :=
  { user := f32_div c.user c.total
  , nice := f32_div c.nice c.total
  , system := f32_div c.system c.total
  , interrupt := f32_div c.interrupt c.total
  , idle := f32_div c.idle c.total }

/-- The deferred computation's per-CPU body: `(*now - prev).to_cpuload()`. -/
def cpu_load_second_phase (prev now : CpuTime) : CpuLoad :=
  (CpuTime.sub now prev).to_cpuload

/-- A concrete raw mount record with `f_ffree > f_files`, used to exercise
the saturating branch of the decoder. -/
def sample_statfs : statfs_raw :=
  ⟨ 1, 0, 0, 0, 5, 10, 0, "ufs", "/dev/ada0p2", "/" ⟩

/-!
## Shared helper lemmas
-/

/-- Unfolding lemma for the bytesize Add instance. -/
theorem ByteSize.add_bytes (x y : ByteSize) :
    (x + y).bytes = (x.bytes + y.bytes) % U64MOD := rfl

/-!
## Claims
-/

/-- C1 (counterexample): on the out-of-range raw reading 150 the returned
remaining_capacity is 1.5, strictly greater than 1.0 — there is no clamp. -/
theorem C1_counterexample :
    1 < (battery_life 150 0).remaining_capacity := by
  norm_num [battery_life]

/-- C1 (amended): remaining_capacity is the unclamped quotient life/100, so
it lies in [0,1] exactly when the raw reading is at most 100 (it is never
negative since the raw reading is unsigned); remaining_time is a
non-negative duration with negative raw time values clamped to zero. -/
theorem C1_battery_life (life : Nat) (t1 t2 : Int)
    (hlife : life ≤ 100) (ht : t2 < 0) :
    (0 ≤ (battery_life life t1).remaining_capacity
      ∧ (battery_life life t1).remaining_capacity ≤ 1)
    ∧ (battery_life life t2).remaining_time_secs = 0 := by
  refine ⟨ ⟨ ?_, ?_ ⟩, ?_ ⟩
  · simp only [battery_life]
    positivity
  · simp only [battery_life]
    rw [div_le_one (by norm_num)]
    exact_mod_cast hlife
  · simp [battery_life, ht]

/-- C1 witness. -/
theorem C1_battery_life_witness :
    (100 ≤ 100 ∧ (-3 : Int) < 0)
    ∧ ((0 ≤ (battery_life 100 7).remaining_capacity
        ∧ (battery_life 100 7).remaining_capacity ≤ 1)
      ∧ (battery_life 100 (-3)).remaining_time_secs = 0) :=
  ⟨ ⟨ by decide, by decide ⟩, C1_battery_life 100 7 (-3) (by decide) (by decide) ⟩

/-- C2 (counterexample): resolving a name unknown to the running kernel does
not fail at all — `sysctl_mib` silently returns the all-zero handle, because
the status of `sysctlnametomib` is discarded. -/
theorem C2_counterexample :
    sysctl_mib 2 (fun _ => Option.none) "kern.cp_times" = [0, 0] := rfl

/-- C2 (amended): an unknown counter name is silently tolerated at
resolution time: the name-to-mib translation failure is ignored and the
cached handle is the zero-initialized mib array; no fatal startup failure
and no error is raised by resolution. -/
theorem C2_sysctl_mib_unknown (len : Nat) (kernel : String → Option (List Int))
    (name : String) (h : kernel name = Option.none) :
    sysctl_mib len kernel name = List.replicate len 0 := by
  simp [sysctl_mib, h]

/-- C2 witness. -/
theorem C2_sysctl_mib_unknown_witness :
    (fun _ : String => (Option.none : Option (List Int))) "kern.boottime" = Option.none
    ∧ sysctl_mib 2 (fun _ => Option.none) "kern.boottime" = List.replicate 2 0 :=
  ⟨ rfl, C2_sysctl_mib_unknown 2 (fun _ => Option.none) "kern.boottime" rfl ⟩

/-- C3 (code bug): with page shift 12, a raw active count of 1 page is
reported as 4194304 bytes — the shifted page count (4096, which would be the
byte count) is additionally multiplied by 1024 by the `ByteSize::kib`
wrapper, so the stored value is 4096 KiB, not 4096 bytes. -/
theorem C3_kib_not_bytes :
    (memory 12 ⟨ 1, 0, 0, 0, 0, 0 ⟩).platform_memory.active = ByteSize.b 4194304
    ∧ u64_shl 1 12 = 4096 := by
  constructor <;> decide

/-- C4 (code bug): `boot_time` hands the microsecond field to chrono's
nanosecond parameter.  On the raw record {1700000000 s, 500000 us} the code
produces the instant 1700000000 s + 500000 ns after the epoch, while the
spec requires 1700000000 s + 500000 us = 1700000000 s + 500000000 ns; the
two agree only when the microsecond field is zero, as in the spec's
scenario record {1700000000, 0}. -/
theorem C4_usec_passed_as_nsec :
    boot_time ⟨ 1700000000, 500000 ⟩ = 1700000000000500000
    ∧ boot_time_per_spec ⟨ 1700000000, 500000 ⟩ = 1700000000500000000
    ∧ boot_time ⟨ 1700000000, 0 ⟩ = boot_time_per_spec ⟨ 1700000000, 0 ⟩ := by
  refine ⟨ ?_, ?_, ?_ ⟩ <;> decide

/-- C5 (counterexample): on two equal tick samples the second-phase
computation returns NaN fractions (0/0), not a defined value. -/
theorem C5_counterexample :
    (cpu_load_second_phase ⟨ 5, 5, 5, 5, 5 ⟩ ⟨ 5, 5, 5, 5, 5 ⟩).user = F32.nan := rfl

/-- C5 (amended): on two equal samples the delta is all-zero, its total is
zero, and every fraction is computed as 0/0 — the computation does return a
record (no crash, no exception), but all five fractions are NaN rather than
defined values such as all-zero fractions or the previous value. -/
theorem C5_equal_samples_nan (c : CpuTime) :
    cpu_load_second_phase c c = ⟨ F32.nan, F32.nan, F32.nan, F32.nan, F32.nan ⟩ := by
  simp [cpu_load_second_phase, CpuTime.sub, CpuTime.to_cpuload, CpuTime.total, f32_div]

/-- C6: the reported wired component is exactly the saturating subtraction
of the ZFS ARC size from the converted wired value — zero whenever the ARC
size exceeds it, never a wrapped negative — and the reported free field is
exactly inactive + cache + ARC + truly-free as summed by the source. -/
theorem C6_wired_saturates_free_sum (ps : Nat) (s : RawMemSample) :
    (memory ps s).platform_memory.wired
      = saturating_sub_bytes (ByteSize.kib (u64_shl s.wired ps)) (ByteSize.b s.arc)
    ∧ (memory ps s).platform_memory.wired.bytes
      = (if s.arc ≤ (ByteSize.kib (u64_shl s.wired ps)).bytes
          then (ByteSize.kib (u64_shl s.wired ps)).bytes - s.arc
          else 0)
    ∧ (memory ps s).free
      = (memory ps s).platform_memory.inactive + (memory ps s).platform_memory.cache
          + (memory ps s).platform_memory.zfs_arc + (memory ps s).platform_memory.free := by
  refine ⟨ rfl, ?_, rfl ⟩
  simp only [memory, saturating_sub_bytes, ByteSize.kib, ByteSize.b]
  split <;> omega

/-- C7: every Filesystem produced by the bulk mounts() call or by the
single-record mount_at() call — both of which decode through the shared
to_fs — satisfies files = saturating_sub(files_total, files_avail): the
plain difference when files_avail ≤ files_total, and 0 (never a wrapped
huge number) when files_avail exceeds files_total. -/
theorem C7_files_saturating (len : Int) (records : List statfs_raw)
    (res : Option statfs_raw) (l : List Filesystem) (fs : Filesystem)
    (h : (mounts len records = Except.ok l ∧ fs ∈ l) ∨ mount_at res = Except.ok fs) :
    fs.files = fs.files_total - fs.files_avail
    ∧ fs.files = (if fs.files_avail ≤ fs.files_total
                    then fs.files_total - fs.files_avail else 0) := by
  have hfs : ∃ m : statfs_raw, fs = m.to_fs := by
    rcases h with ⟨ hm, hmem ⟩ | hma
    · unfold mounts at hm
      split at hm
      · cases hm
      · cases hm
        rcases List.mem_map.mp hmem with ⟨ m, _, rfl ⟩
        exact ⟨ m, rfl ⟩
    · unfold mount_at at hma
      cases res with
      | none => cases hma
      | some m =>
        cases hma
        exact ⟨ m, rfl ⟩
  rcases hfs with ⟨ m, rfl ⟩
  unfold statfs_raw.to_fs
  refine ⟨ rfl, ?_ ⟩
  simp only
  split <;> omega

/-- C7 witness, on a record whose files_avail (10) exceeds files_total (5). -/
theorem C7_files_saturating_witness :
    ((mounts 1 [sample_statfs] = Except.ok [sample_statfs.to_fs]
        ∧ sample_statfs.to_fs ∈ [sample_statfs.to_fs])
      ∨ mount_at Option.none = Except.ok sample_statfs.to_fs)
    ∧ (sample_statfs.to_fs.files
          = sample_statfs.to_fs.files_total - sample_statfs.to_fs.files_avail
      ∧ sample_statfs.to_fs.files
          = (if sample_statfs.to_fs.files_avail ≤ sample_statfs.to_fs.files_total
              then sample_statfs.to_fs.files_total - sample_statfs.to_fs.files_avail
              else 0)) :=
  ⟨ Or.inl ⟨ rfl, by simp ⟩,
    C7_files_saturating 1 [sample_statfs] Option.none [sample_statfs.to_fs]
      sample_statfs.to_fs (Or.inl ⟨ rfl, by simp ⟩) ⟩

/-- C8: the three metrics this platform does not expose return the
Unsupported error value (`ErrorKind::Other`, message "Not supported") on
every call and for every input — they are constant functions, so the
failure is deterministic and can never succeed intermittently. -/
theorem C8_unsupported_deterministic (iface : String) :
    block_device_statistics = Except.error not_supported
    ∧ network_stats iface = Except.error not_supported
    ∧ socket_stats = Except.error not_supported :=
  ⟨ rfl, rfl, rfl ⟩

/-- C9: whenever the u64 sum of the six reported platform components does
not overflow (always the case for kernel-plausible byte counts), the
reported total equals active + inactive + wired + cache + zfs_arc + free —
including when the saturating subtraction inside wired clamped to zero,
since total sums the already-clamped wired value. -/
theorem C9_total_eq_component_sum (ps : Nat) (s : RawMemSample)
    (h : (memory ps s).platform_memory.active.bytes
          + (memory ps s).platform_memory.inactive.bytes
          + (memory ps s).platform_memory.wired.bytes
          + (memory ps s).platform_memory.cache.bytes
          + (memory ps s).platform_memory.zfs_arc.bytes
          + (memory ps s).platform_memory.free.bytes < U64MOD) :
    (memory ps s).total.bytes
      = (memory ps s).platform_memory.active.bytes
          + (memory ps s).platform_memory.inactive.bytes
          + (memory ps s).platform_memory.wired.bytes
          + (memory ps s).platform_memory.cache.bytes
          + (memory ps s).platform_memory.zfs_arc.bytes
          + (memory ps s).platform_memory.free.bytes := by
  simp only [memory, ByteSize.add_bytes, ByteSize.kib, ByteSize.b,
    saturating_sub_bytes] at h ⊢
  unfold U64MOD at h ⊢
  omega

/-- C9 witness. -/
theorem C9_total_eq_component_sum_witness :
    ((memory 12 ⟨ 1, 2, 3, 4, 5, 6 ⟩).platform_memory.active.bytes
        + (memory 12 ⟨ 1, 2, 3, 4, 5, 6 ⟩).platform_memory.inactive.bytes
        + (memory 12 ⟨ 1, 2, 3, 4, 5, 6 ⟩).platform_memory.wired.bytes
        + (memory 12 ⟨ 1, 2, 3, 4, 5, 6 ⟩).platform_memory.cache.bytes
        + (memory 12 ⟨ 1, 2, 3, 4, 5, 6 ⟩).platform_memory.zfs_arc.bytes
        + (memory 12 ⟨ 1, 2, 3, 4, 5, 6 ⟩).platform_memory.free.bytes < U64MOD)
    ∧ (memory 12 ⟨ 1, 2, 3, 4, 5, 6 ⟩).total.bytes
      = (memory 12 ⟨ 1, 2, 3, 4, 5, 6 ⟩).platform_memory.active.bytes
          + (memory 12 ⟨ 1, 2, 3, 4, 5, 6 ⟩).platform_memory.inactive.bytes
          + (memory 12 ⟨ 1, 2, 3, 4, 5, 6 ⟩).platform_memory.wired.bytes
          + (memory 12 ⟨ 1, 2, 3, 4, 5, 6 ⟩).platform_memory.cache.bytes
          + (memory 12 ⟨ 1, 2, 3, 4, 5, 6 ⟩).platform_memory.zfs_arc.bytes
          + (memory 12 ⟨ 1, 2, 3, 4, 5, 6 ⟩).platform_memory.free.bytes :=
  ⟨ by decide, C9_total_eq_component_sum 12 ⟨ 1, 2, 3, 4, 5, 6 ⟩ (by decide) ⟩

/-- C10: under the same no-overflow side condition, the reported free byte
count never exceeds the reported total: free sums the inactive, cache,
zfs_arc and truly-free components, a subset of the six components summed
into total. -/
theorem C10_free_le_total (ps : Nat) (s : RawMemSample)
    (h : (memory ps s).platform_memory.active.bytes
          + (memory ps s).platform_memory.inactive.bytes
          + (memory ps s).platform_memory.wired.bytes
          + (memory ps s).platform_memory.cache.bytes
          + (memory ps s).platform_memory.zfs_arc.bytes
          + (memory ps s).platform_memory.free.bytes < U64MOD) :
    (memory ps s).free.bytes ≤ (memory ps s).total.bytes := by
  simp only [memory, ByteSize.add_bytes, ByteSize.kib, ByteSize.b,
    saturating_sub_bytes] at h ⊢
  unfold U64MOD at h ⊢
  omega

/-- C10 witness. -/
theorem C10_free_le_total_witness :
    ((memory 12 ⟨ 7, 2, 3, 4, 5, 6 ⟩).platform_memory.active.bytes
        + (memory 12 ⟨ 7, 2, 3, 4, 5, 6 ⟩).platform_memory.inactive.bytes
        + (memory 12 ⟨ 7, 2, 3, 4, 5, 6 ⟩).platform_memory.wired.bytes
        + (memory 12 ⟨ 7, 2, 3, 4, 5, 6 ⟩).platform_memory.cache.bytes
        + (memory 12 ⟨ 7, 2, 3, 4, 5, 6 ⟩).platform_memory.zfs_arc.bytes
        + (memory 12 ⟨ 7, 2, 3, 4, 5, 6 ⟩).platform_memory.free.bytes < U64MOD)
    ∧ (memory 12 ⟨ 7, 2, 3, 4, 5, 6 ⟩).free.bytes
        ≤ (memory 12 ⟨ 7, 2, 3, 4, 5, 6 ⟩).total.bytes :=
  ⟨ by decide, C10_free_le_total 12 ⟨ 7, 2, 3, 4, 5, 6 ⟩ (by decide) ⟩

end Systemstat
